import Mathlib

/-!
Shallow embedding of the baresip `vqueue` audio-command priority scheduler
(src/src/vqueue.cpp and modules/vqueue/vqueue.cpp), with theorems settling
the claims about parser, queue, scheduler and completion handling.

Machine integers: `size_t` values are modeled as `Nat` (subtraction is
truncated, which agrees with the C code on the monotonic-clock traces
modeled here, where `now >= time_stopped`); C `int` values are `Int`.
External audio calls (`play_file_ext`, `ausrc->alloch`) are modeled as
succeeding and are logged in a `started` list.
-/

namespace VqueueModel

/-- `const int max_priority = 5;` -/
def max_priority : Nat := 5

/-- `enum mode` bit values from src/src/vqueue.cpp (`m_discard = 1`, ...). -/
def m_discard : Nat := 1

def m_pause : Nat := 2

def m_mute : Nat := 4

def m_restart : Nat := 8

def m_dont_interrupt : Nat := 16

def m_loop : Nat := 32

def m_last : Nat := 32

/-- `class Play`: `_filename`, `_length = 0` (ms), `_offset = 0` (ms).
Note `Play::set_filename` computes the file length and returns it, but the
result is discarded by every caller and `_length` is never assigned, so a
parsed Play keeps `length = 0`. -/
structure Play where
  filename : String
  length : Nat := 0
  offset : Nat := 0
deriving Repr, DecidableEq

/-- `class Record`: `_filename`, `_max_silence = 1000`, `_length = 0`. -/
structure Record where
  filename : String
  max_silence : Int := 1000
  length : Nat := 0
deriving Repr, DecidableEq

/-- `class DTMF`: `_dtmf`, `_inter_digit_delay = 100`, `_pos = 0`,
`_length = 0` (the `_lengths` string of the source is never used). -/
structure DTMF where
  dtmf : String
  inter_digit_delay : Int := 100
  pos : Nat := 0
  length : Nat := 0
deriving Repr, DecidableEq

/-- `using Atom = std::variant<Play, Record, DTMF>;` -/
inductive Atom where
  | play (p : Play)
  | record (r : Record)
  | dtmf (d : DTMF)
deriving Repr, DecidableEq

/-- `struct Molecule` of src/src/vqueue.cpp. `mode` is the or-ed bitset
(the C field is enum-typed but holds or-ed values). -/
structure Molecule where
  atoms : List Atom
  time_started : Nat := 0
  time_stopped : Nat := 0
  position : Nat := 0
  current : Nat := 0
  priority : Int := 0
  mode : Nat
deriving Repr, DecidableEq

/-- The per-atom length used by `Molecule::length` (`Play::length()`,
`Record::length()`, `DTMF::length()`). -/
def Atom.len : Atom → Nat
  | .play p => p.length
  | .record r => r.length
  | .dtmf d => d.length

/-- `Molecule::length(int start = 0, int end = -1)`: sum of the atom lengths.
Every call site in the modeled code uses the defaults (the whole atom list). -/
def Molecule.length (m : Molecule) : Nat :=
  (m.atoms.map Atom.len).sum

/-- `Play::set_offset` / `DTMF::set_offset` as called from
`Molecule::set_position`. `DTMF::set_offset` is an empty stub in the source;
`Record` has no `set_offset` and the source never calls one on it. -/
def Atom.setOffset : Atom → Nat → Atom
  | .play p, off => .play { p with offset := off }
  | .record r, _ => .record r
  | .dtmf d, _ => .dtmf d

/-- The scan loop of `Molecule::set_position`: walks the atoms accumulating
`l` (and `l_prev`); at the first atom with `l >= position`, if the mode has
`m_mute` it records `current = i` and the intra-atom offset
`position - l_prev` and returns; otherwise the loop runs to the end with no
effect. -/
def setPositionGo (md : Nat) (position : Nat) : List Atom → Nat → Nat → Option (Nat × Nat)
  | [], _, _ => none
  | a :: rest, i, lPrev =>
    let l := lPrev + a.len
    if l ≥ position ∧ md &&& m_mute ≠ 0 then some (i, position - lPrev)
    else setPositionGo md position rest (i + 1) l

/-- `Molecule::set_position(size_t position)`. If the mode has `m_loop` the
position is first reduced modulo `length()` (the C code computes `% 0`
— undefined — when the total length is 0; no modeled trace hits that). -/
def Molecule.set_position (m : Molecule) (position : Nat) : Molecule :=
  let position := if m.mode &&& m_loop ≠ 0 then position % m.length else position
  match setPositionGo m.mode position m.atoms 0 0 with
  | some (i, off) =>
    { m with current := i, atoms := m.atoms.mapIdx (fun j a => if j = i then a.setOffset off else a) }
  | none => m

/-- The `switch (em)` of `mode_string`: name of a single mode bit
(`em = m & e` is either `0` or the bit `e`; `0` matches no case). -/
def mode_name (em : Nat) : String :=
  if em = m_discard then "discard"
  else if em = m_pause then "pause"
  else if em = m_mute then "mute"
  else if em = m_restart then "restart"
  else if em = m_dont_interrupt then "dont_interrupt"
  else if em = m_loop then "loop"
  else ""

/-- The values taken by `e` in `for (int e = m_last; e != 0; e >>= 1)`. -/
def mode_bits : List Nat := [32, 16, 8, 4, 2, 1]

/-- `mode_string(mode m)`: builds a `|`-separated string, inserting `|`
before each iteration when the accumulator is nonempty and does not already
end in `|`, then strips one trailing `|`. -/
def mode_string (m : Nat) : String :=
  let s := mode_bits.foldl
    (fun modestr e =>
      let modestr := if modestr.length ≠ 0 ∧ modestr.back ≠ '|' then modestr ++ "|" else modestr
      modestr ++ mode_name (m &&& e)) ""
  if s.length ≠ 0 ∧ s.back = '|' then s.dropRight 1 else s

/-- One atom's contribution to `Molecule::desc`: the keyword and the
filename / digit string (numeric parameters are not emitted). -/
def atomDesc : Atom → String
  | .play p => " play " ++ p.filename
  | .dtmf d => " dtmf " ++ d.dtmf
  | .record r => " record " ++ r.filename

/-- `Molecule::desc()`: priority, mode string, then the atoms. -/
def Molecule.desc (m : Molecule) : String :=
  toString m.priority ++ " " ++ mode_string m.mode ++ String.join (m.atoms.map atomDesc)

/-- Replace the element at an index of a list (out-of-range index: no-op),
used to model in-place mutation through iterators/pointers. -/
def listUpd : List α → Nat → (α → α) → List α
  | [], _, _ => []
  | a :: l, 0, f => f a :: l
  | a :: l, n + 1, f => a :: listUpd l n f

/-- Read lane `p` of `VQueue::molecules`. The C array has `max_priority`
entries; reading index `max_priority` (which `VQueue::next` does) is an
out-of-bounds read, modeled here as an empty lane. -/
def getLane : List (List Molecule) → Nat → List Molecule
  | [], _ => []
  | lane :: _, 0 => lane
  | _ :: rest, n + 1 => getLane rest n

/-- Dereference a (lane, index) location, the model of a `Molecule*` /
iterator into the queue. -/
def getMol? (lanes : List (List Molecule)) (loc : Nat × Nat) : Option Molecule :=
  (getLane lanes loc.1).get? loc.2

/-- Mutate the molecule at a location in place. -/
def updMolAt (lanes : List (List Molecule)) (loc : Nat × Nat) (f : Molecule → Molecule) :
    List (List Molecule) :=
  listUpd lanes loc.1 (fun lane => listUpd lane loc.2 f)

/-- `VQueue::discard(Molecule* m)`: erase the molecule from its lane (the
source scans `molecules[m->priority]` for the matching pointer; the location
pair identifies the same element). -/
def discardLoc (lanes : List (List Molecule)) (loc : Nat × Nat) : List (List Molecule) :=
  listUpd lanes loc.1 (fun lane => lane.eraseIdx loc.2)

/-- `vqueue.molecules[m.priority].push_back(m)`: defined only when
`0 <= priority < max_priority` — the parser performs no range check, and for
any other priority the C write is out of bounds (undefined behavior),
modeled as `none`. -/
def pushLane (lanes : List (List Molecule)) (p : Int) (m : Molecule) :
    Option (List (List Molecule)) :=
  if 0 ≤ p ∧ p.toNat < lanes.length then some (listUpd lanes p.toNat (fun lane => lane ++ [m]))
  else none

/-- Inner scan of `VQueue::next`: first molecule in the lane whose
`atoms.size()` is nonzero, together with its index. -/
def findAtomIdx : List Molecule → Nat → Option Nat
  | [], _ => none
  | m :: rest, i => if m.atoms.length ≠ 0 then some i else findAtomIdx rest (i + 1)

/-- Lane indices visited by `for (int p = max_priority; p >= 0; --p)`:
`p`, `p-1`, ..., `0`. -/
def downFrom : Nat → List Nat
  | 0 => [0]
  | p + 1 => (p + 1) :: downFrom p

/-- The lane indices `VQueue::next` reads, in scan order. The first one is
`max_priority` itself, one past the last valid lane index. -/
def VQueue.nextAccessedLanes : List Nat := downFrom max_priority

/-- Outer scan of `VQueue::next` over the lane indices. -/
def findFirstLane (lanes : List (List Molecule)) : List Nat → Option (Nat × Nat)
  | [] => none
  | p :: ps =>
    match findAtomIdx (getLane lanes p) 0 with
    | some i => some (p, i)
    | none => findFirstLane lanes ps

/-- `VQueue::next()`: scan lanes from `max_priority` down to `0`, return the
location of the first molecule with a nonempty atom list, or `none`
(the `end()` iterator). -/
def VQueue.next (lanes : List (List Molecule)) : Option (Nat × Nat) :=
  findFirstLane lanes VQueue.nextAccessedLanes

/-- An audio operation started by the scheduler: `play_file_ext` for a Play
atom, `play_file_ext` on the tone file derived from a digit for a DTMF atom
(recorded here by the digit the code selected), or `ausrc->alloch` for a
Record atom. External starts are modeled as succeeding. -/
inductive StartedOp where
  | play (filename : String) (offset : Nat)
  | dtmfPlay (digit : Char)
  | record (filename : String)
deriving Repr, DecidableEq

/-- The scheduler's mutable state: the global `vqueue.molecules` lanes, the
globals `g_play` / `g_rec`, and a log of every audio operation started. -/
structure SchedState where
  lanes : List (List Molecule)
  gPlay : Option StartedOp := none
  gRec : Bool := false
  started : List StartedOp := []
deriving Repr, DecidableEq

/-- Which piece of `VQueue::schedule` is executing: the function entry with
its `stopped` argument, or the `while (n != end())` dispatch loop with the
current iterator `n`. -/
inductive SchedCall where
  | sched (stopped : Option (Nat × Nat))
  | loop (n : Option (Nat × Nat))
deriving Repr

/-- `VQueue::schedule(Molecule* stopped)` and its dispatch loop, with fuel.
Result `(st, true)` means the call returned (value 0 — the external start
calls are modeled as succeeding, so the `return err` paths never fire);
`(st, false)` means the fuel ran out before the code returned.

Faithfully modeled control flow, including:
* the `stopped` handling (discard on `m_discard`; otherwise, when `stopped`
  is the molecule `next()` selects, `++current` and discard once
  `current >= atoms.size()` — with no `m_loop` check);
* the dead inner `if (n->mode & m_mute)` re-test of the mute branch (its
  `else if (n->mode & m_loop)` arm is unreachable), which discards the
  expired mute molecule, calls `set_position(pos)` on the *next* molecule
  and breaks out of the loop (when `next()` is `end()` there the C code
  dereferences the end iterator — undefined behavior — modeled as a plain
  break);
* `Atom a = n->atoms[n->current]` taking a *copy* of the atom, so the DTMF
  `++d` / `d.reset()` cursor mutations are lost (only `n->current++` lands
  in the queue); `_dtmf[_pos]` at `_pos == size()` reads the terminating
  NUL, modeled with `List.getD ... (Char.ofNat 0)`;
* after a successful dispatch the loop reloads `n = vqueue.next()` and
  iterates again (nothing removed the dispatched molecule);
* the post-loop `if (n != end() && n->current == 0) n->time_started = now`
  (reachable only through the `break`). -/
def schedStep : Nat → SchedCall → SchedState → Nat → SchedState × Bool
  | 0, _, st, _ => (st, false)
  | fuel + 1, .sched stopped, st, now =>
    let n0 := VQueue.next st.lanes
    match stopped with
    | none => schedStep fuel (.loop n0) st now
    | some loc =>
      match getMol? st.lanes loc with
      | none => schedStep fuel (.loop n0) st now
      | some sm =>
        if sm.mode &&& m_discard ≠ 0 then
          let q := discardLoc st.lanes loc
          schedStep fuel (.loop (VQueue.next q)) { st with lanes := q } now
        else if n0 = some loc then
          let q := updMolAt st.lanes loc (fun m => { m with current := m.current + 1 })
          if sm.current + 1 ≥ sm.atoms.length then
            let q2 := discardLoc q loc
            schedStep fuel (.loop (VQueue.next q2)) { st with lanes := q2 } now
          else
            schedStep fuel (.loop n0) { st with lanes := q } now
        else
          schedStep fuel (.loop n0) st now
  | fuel + 1, .loop n, st, now =>
    match n with
    | none => (st, true)
    | some loc =>
      match getMol? st.lanes loc with
      | none => (st, true)
      | some m0 =>
        if m0.mode &&& m_pause = 0 ∧ m0.mode &&& m_mute ≠ 0 ∧ now - m0.time_stopped ≥ m0.length then
          let pos := now - m0.time_stopped
          let q := discardLoc st.lanes loc
          match VQueue.next q with
          | some loc2 =>
            let q2 := updMolAt q loc2 (fun mm => mm.set_position pos)
            let q3 :=
              match getMol? q2 loc2 with
              | some mm =>
                if mm.current = 0 then updMolAt q2 loc2 (fun x => { x with time_started := now })
                else q2
              | none => q2
            ({ st with lanes := q3 }, true)
          | none => ({ st with lanes := q }, true)
        else
          let st1 :=
            if m0.mode &&& m_pause ≠ 0 then
              { st with lanes := updMolAt st.lanes loc (fun mm => mm.set_position mm.position) }
            else st
          match getMol? st1.lanes loc with
          | none => (st1, true)
          | some m1 =>
            match m1.atoms.get? m1.current with
            | none => (st1, true)
            | some (.play pl) =>
              let op := StartedOp.play pl.filename pl.offset
              let st2 := { st1 with gPlay := some op, started := st1.started ++ [op] }
              schedStep fuel (.loop (VQueue.next st2.lanes)) st2 now
            | some (.dtmf d) =>
              let posD := d.pos + 1
              if posD > d.dtmf.length then
                let q := updMolAt st1.lanes loc (fun mm => { mm with current := mm.current + 1 })
                if m1.current + 1 ≥ m1.atoms.length then
                  schedStep fuel (.sched (some loc)) { st1 with lanes := q } now
                else
                  let digit := d.dtmf.toList.getD 0 (Char.ofNat 0)
                  let op := StartedOp.dtmfPlay digit
                  let st2 := { st1 with lanes := q, gPlay := some op, started := st1.started ++ [op] }
                  schedStep fuel (.loop (VQueue.next st2.lanes)) st2 now
              else
                let digit := d.dtmf.toList.getD posD (Char.ofNat 0)
                let op := StartedOp.dtmfPlay digit
                let st2 := { st1 with gPlay := some op, started := st1.started ++ [op] }
                schedStep fuel (.loop (VQueue.next st2.lanes)) st2 now
            | some (.record r) =>
              let op := StartedOp.record r.filename
              let st2 := { st1 with gRec := true, started := st1.started ++ [op] }
              schedStep fuel (.loop (VQueue.next st2.lanes)) st2 now

/-- `play_stop_handler(struct play*, void* arg)`: release `g_play` / `g_rec`,
stamp `stopped->time_stopped = now` and
`stopped->position = now - stopped->time_started`, then call
`vqueue.schedule(stopped)`. -/
def play_stop_handler (fuel : Nat) (st : SchedState) (loc : Nat × Nat) (now : Nat) :
    SchedState × Bool :=
  let st := { st with gPlay := none, gRec := false }
  let st :=
    { st with
      lanes := updMolAt st.lanes loc
        (fun m => { m with time_stopped := now, position := now - m.time_started }) }
  schedStep fuel (.sched (some loc)) st now

/-- The first half of `VQueue::enqueue(const Molecule& m, void* arg)`,
up to just before `schedule` is entered: push the molecule into lane
`m.priority`, then unconditionally release the current player and recorder
(`g_play = mem_deref(g_play); g_rec = mem_deref(g_rec);`) — there is no
`m_dont_interrupt` check anywhere. `none` when the lane write is out of
bounds. -/
def VQueue.enqueuePre (st : SchedState) (m : Molecule) : Option SchedState :=
  (pushLane st.lanes m.priority m).map
    (fun q => { st with lanes := q, gPlay := none, gRec := false })

/-- `VQueue::enqueue(const Molecule& m, void* arg)`: the push/release above,
then `stopped = next()`; `schedule(&*stopped)` when it exists, else
`schedule(nullptr)`. -/
def VQueue.enqueueMol (fuel : Nat) (st : SchedState) (m : Molecule) (now : Nat) :
    SchedState × Bool :=
  match VQueue.enqueuePre st m with
  | none => (st, false)
  | some st1 =>
    match VQueue.next st1.lanes with
    | some loc => schedStep fuel (.sched (some loc)) st1 now
    | none => schedStep fuel (.sched none) st1 now

/-- `is_atom_start(const std::string&)` of src/src/vqueue.cpp: true when the
*first character* of the token is `p`, `r` or `d` (`token[0]` on an empty
`std::string` reads the terminating NUL, matched by the `getD` default). -/
def is_atom_start (token : String) : Bool :=
  let c := token.toList.getD 0 (Char.ofNat 0)
  c = 'p' ∨ c = 'r' ∨ c = 'd'

/-- The leading decimal-digit run of a character list, `none` if the first
character is not a digit. -/
def leadingNat : List Char → Option Nat
  | [] => none
  | c :: rest =>
    if c.isDigit then
      some (rest.takeWhile Char.isDigit |>.foldl (fun acc d => acc * 10 + (d.toNat - 48)) (c.toNat - 48))
    else none

/-- `std::stol` on a whitespace-free token: optional sign then decimal
digits; `none` models the `std::invalid_argument` throw when no digits
follow. Parsing stops at the first non-digit (overflow is out of scope of
the modeled inputs). -/
def stol (s : String) : Option Int :=
  match s.toList with
  | '-' :: rest => (leadingNat rest).map (fun n => -(n : Int))
  | '+' :: rest => (leadingNat rest).map (fun n => (n : Int))
  | cs => (leadingNat cs).map (fun n => (n : Int))

/-- The mode keyword comparison chain of `VQueue::enqueue(const char*)`,
returning the bit or-ed into `m.mode` (`none` = no keyword matched, the
loop `break`s). -/
def modeBit (t : String) : Option Nat :=
  if t = "loop" then some m_loop
  else if t = "mute" then some m_mute
  else if t = "discard" then some m_discard
  else if t = "pause" then some m_pause
  else if t = "restart" then some m_restart
  else if t = "dont_interrupt" then some m_dont_interrupt
  else none

/-- The `for (int i = 0; i < 2; ++i)` mode loop: at most two mode keywords
are consumed; after each one, running out of tokens is the
`perror("missing mode"); return 0;` path, modeled as `none`. Returns the
accumulated mode bitset and the next token index. -/
def parseModesGo : Nat → List String → Nat → Nat → Option (Nat × Nat)
  | 0, _, ti, md => some (md, ti)
  | k + 1, tokens, ti, md =>
    match modeBit (tokens.getD ti "") with
    | none => some (md, ti)
    | some b =>
      let md := md ||| b
      let ti := ti + 1
      if ti ≥ tokens.length then none else parseModesGo k tokens ti md

/-- Outcome of the atom-parsing `while (token != tokens.end())` loop. -/
inductive AtomLoopOut where
  | ret0
  | threw
  | ub
  | done (atoms : List Atom)
deriving Repr, DecidableEq

/-- The atom loop of `VQueue::enqueue(const char*)`, with fuel (`none` =
the loop never terminates). Faithful control flow:
* `p`/`play`: consume the keyword and filename (`Play::set_filename`
  computes the file's length but the caller drops it, so `length` stays 0);
  if a following token exists and is not an atom start, `set_offset(stol)`
  is called **without advancing the token** (the numeric token is re-seen
  by the next iteration); if it is an atom start, the token is advanced
  **past that atom keyword**; missing filename is `return 0`;
* `r`/`record`: keyword, filename, then an optional `max_silence` numeric
  token which *is* consumed; a following atom-start token is left in place;
* `d`/`dtmf`: keyword, digits; then the source tests `is_atom_start(*token)`
  **without checking for the end iterator** — when the digits are the last
  token this dereferences `end()` (undefined behavior, `.ub`);
* any other token matches no branch and the loop spins without advancing;
* `stol` on a non-numeric parameter token throws out of the function
  (`.threw`). -/
def parseAtoms : Nat → List String → Nat → List Atom → Option AtomLoopOut
  | 0, _, _, _ => none
  | fuel + 1, tokens, ti, acc =>
    match tokens.get? ti with
    | none => some (.done acc)
    | some t =>
      if t = "p" ∨ t = "play" then
        match tokens.get? (ti + 1) with
        | none => some .ret0
        | some fname =>
          let pl : Play := { filename := fname }
          match tokens.get? (ti + 2) with
          | none => parseAtoms fuel tokens (ti + 2) (acc ++ [.play pl])
          | some t2 =>
            if ¬ is_atom_start t2 then
              match stol t2 with
              | none => some .threw
              | some off =>
                parseAtoms fuel tokens (ti + 2)
                  (acc ++ [.play { pl with offset := (off % ((2 : Int) ^ 64)).toNat }])
            else
              parseAtoms fuel tokens (ti + 3) (acc ++ [.play pl])
      else if t = "r" ∨ t = "record" then
        match tokens.get? (ti + 1) with
        | none => some .ret0
        | some fname =>
          match tokens.get? (ti + 2) with
          | none => parseAtoms fuel tokens (ti + 2) (acc ++ [.record { filename := fname }])
          | some t2 =>
            if ¬ is_atom_start t2 then
              match stol t2 with
              | none => some .threw
              | some ms =>
                parseAtoms fuel tokens (ti + 3) (acc ++ [.record { filename := fname, max_silence := ms }])
            else
              parseAtoms fuel tokens (ti + 2) (acc ++ [.record { filename := fname }])
      else if t = "d" ∨ t = "dtmf" then
        match tokens.get? (ti + 1) with
        | none => some .ret0
        | some digs =>
          match tokens.get? (ti + 2) with
          | none => some .ub
          | some t2 =>
            if ¬ is_atom_start t2 then
              match stol t2 with
              | none => some .threw
              | some dly =>
                parseAtoms fuel tokens (ti + 3) (acc ++ [.dtmf { dtmf := digs, inter_digit_delay := dly }])
            else
              parseAtoms fuel tokens (ti + 2) (acc ++ [.dtmf { dtmf := digs }])
      else
        parseAtoms fuel tokens ti acc

/-- `errno`-style `EINVAL` returned by the priority checks. -/
def EINVAL : Int := 22

/-- Result of `VQueue::enqueue(const char* mdesc, void* arg)`. -/
inductive ParseResult where
  | err (code : Int)
  | ret0
  | threw
  | ub
  | ok (m : Molecule)
deriving Repr, DecidableEq

/-- Split a character list at spaces (accumulating the current piece in
reverse), the worker for `tokenize`. -/
def splitAtSpaces : List Char → List Char → List (List Char)
  | [], cur => [cur.reverse]
  | c :: rest, cur =>
    if c = ' ' then cur.reverse :: splitAtSpaces rest []
    else splitAtSpaces rest (c :: cur)

/-- The `\s+` tokenization of the command line (split on whitespace runs,
empty pieces filtered out, matching the `regex_match` filter). -/
def tokenize (s : String) : List String :=
  ((splitAtSpaces s.toList []).map (fun cs => String.mk cs)).filter (fun t => t ≠ "")

/-- `VQueue::enqueue(const char* mdesc, void* arg)`, on the token list:
* no first token → `perror("missing priority"); return EINVAL;`
* `m.priority = std::stol(*token)` — wrapped in `try`, so a non-numeric
  token is `return EINVAL` with **no range check at all** (any integer,
  including negatives and values `>= max_priority`, is accepted);
* missing mode token → `return 0`; then the two-iteration mode loop;
* the atom loop above; an empty atom list → `return 0`;
* otherwise the built molecule is handed to `enqueue(m, arg)` (`.ok m`). -/
def VQueue.enqueueDesc (fuel : Nat) (tokens : List String) : Option ParseResult :=
  match tokens.get? 0 with
  | none => some (.err EINVAL)
  | some t0 =>
    match stol t0 with
    | none => some (.err EINVAL)
    | some pr =>
      if 1 ≥ tokens.length then some .ret0
      else
        match parseModesGo 2 tokens 1 0 with
        | none => some .ret0
        | some (md, ti) =>
          match parseAtoms fuel tokens ti [] with
          | none => none
          | some .ret0 => some .ret0
          | some .threw => some .threw
          | some .ub => some .ub
          | some (.done atoms) =>
            if atoms.length = 0 then some .ret0
            else some (.ok { atoms := atoms, priority := pr, mode := md })

/-- Outcome of the atom loop of `vqueue_enqueue` in
modules/vqueue/vqueue.cpp: `ret0` for the `perror(...); return 0;` paths
inside the branches, `done n` when the loop exits with `n` atoms pushed. -/
inductive MLoopOut where
  | ret0
  | done (n : Nat)
deriving Repr, DecidableEq

/-- The `while (token != tokens.end())` loop of `vqueue_enqueue` in
modules/vqueue/vqueue.cpp, with fuel (`none` = the loop never terminates).
The branches advance only their local copy `args` of the iterator —
**`token` itself is never incremented anywhere in the loop** — and the
unconditional trailing `m.atoms.push_back(atom);` adds a default-constructed
atom each iteration, so the model tracks only the atom count:
* `"p"`: pushes a `Source` built from the two tokens after the keyword
  (plus the default atom) when a filename follows, else `return 0`;
* `"r"` / `"d"`: the branch tests `args != tokens.end()` with `args` still
  equal to `token` (always true) and uses `*args` — the keyword itself — as
  filename/digits, pushing an atom (plus the default atom);
* any other token only gets the default atom. -/
def moduleAtomLoop : Nat → List String → Nat → Nat → Option MLoopOut
  | 0, _, _, _ => none
  | fuel + 1, tokens, ti, acc =>
    match tokens.get? ti with
    | none => some (.done acc)
    | some t =>
      if t = "p" then
        match tokens.get? (ti + 1) with
        | none => some .ret0
        | some _ => moduleAtomLoop fuel tokens ti (acc + 2)
      else if t = "r" then
        moduleAtomLoop fuel tokens ti (acc + 2)
      else if t = "d" then
        moduleAtomLoop fuel tokens ti (acc + 2)
      else
        moduleAtomLoop fuel tokens ti (acc + 1)

/-- Result of `vqueue_enqueue(const char* args)` in
modules/vqueue/vqueue.cpp: a returned value, or the uncaught
`std::invalid_argument` from the unguarded `std::stol`. -/
inductive MResult where
  | ret (v : Int)
  | threw
deriving Repr, DecidableEq

/-- `vqueue_enqueue(const char* args)` of modules/vqueue/vqueue.cpp on the
token list (`none` = the call never returns):
* no token → `perror("missing mode"); return 0;` (the grammar here is mode
  first, then priority); the mode keyword chain has no effect on the rest
  and is not tracked;
* missing priority token → `return 0`; `m.priority = std::stol(*token)` is
  *not* wrapped in `try`, so a non-numeric priority throws out of the
  function;
* then the atom loop runs **with the token still on the priority token**
  (the source never advances past it before the loop);
* an empty atom list → `return 0`; otherwise `return 17;` — a constant id.
  No queue is touched anywhere in the function: the parsed molecule is
  simply dropped. -/
def module_vqueue_enqueue (fuel : Nat) (tokens : List String) : Option MResult :=
  match tokens.get? 0 with
  | none => some (.ret 0)
  | some _t0 =>
    match tokens.get? 1 with
    | none => some (.ret 0)
    | some t1 =>
      match stol t1 with
      | none => some .threw
      | some _pr =>
        match moduleAtomLoop fuel tokens 1 0 with
        | none => none
        | some .ret0 => some (.ret 0)
        | some (.done n) =>
          if n = 0 then some (.ret 0) else some (.ret 17)

/-! Concrete instances used by the theorems. -/

/-- A Mute-mode molecule of total length 10000 ms, preempted with
accumulated position 3000 ms at `time_stopped = 1000`. -/
def musicC1 : Molecule :=
  { atoms := [.play { filename := "music.wav", length := 10000 }],
    time_stopped := 1000, position := 3000, priority := 0, mode := m_mute }

/-- The preempting 1000 ms beep at priority 1, whose completion resumes the
mute molecule. -/
def beepC1 : Molecule :=
  { atoms := [.play { filename := "beep.wav", length := 1000 }],
    time_started := 1000, priority := 1, mode := m_discard }

def stC1 : SchedState :=
  { lanes := [[musicC1], [beepC1], [], [], []], gPlay := some (.play "beep.wav" 0) }

/-- C1: the claim says a Mute molecule preempted at `t1` with position `p`
and resumed at `t2` is resumed via `seek(p + (t2 - t1))` — here
`seek(3000 + (2000 - 1000)) = seek(4000)`, which (per
`Molecule::set_position`, the code's seek) selects atom 0 at offset 4000.
The code instead computes only `pos = now - time_stopped = 1000`, and since
`1000 < length()` it dispatches the current atom at its stored offset 0
without any seek: the play started on resume has offset 0, not 4000. -/
theorem mute_resume_ignores_position :
    ((play_stop_handler 4 stC1 (1, 0) 2000).fst.started.head? =
      some (.play "music.wav" 0)) ∧
    (musicC1.set_position (musicC1.position + (2000 - musicC1.time_stopped))).atoms =
      [.play { filename := "music.wav", length := 10000, offset := 4000 }] ∧
    (musicC1.set_position (musicC1.position + (2000 - musicC1.time_stopped))).current = 0 ∧
    StartedOp.play "music.wav" 0 ≠ StartedOp.play "music.wav" 4000 := by
  refine ⟨rfl, rfl, rfl, by decide⟩

/-- A running DontInterrupt announcement at priority 0 (its play operation
is the current `g_play`). -/
def announceC2 : Molecule :=
  { atoms := [.play { filename := "announce.wav", length := 5000 }],
    priority := 0, mode := m_dont_interrupt }

/-- A discard-mode beep enqueued at priority 1 while the announcement runs. -/
def beepC2 : Molecule :=
  { atoms := [.play { filename := "beep.wav", length := 1000 }],
    priority := 1, mode := m_discard }

def stC2 : SchedState :=
  { lanes := [[announceC2], [], [], [], []], gPlay := some (.play "announce.wav" 0) }

/-- C2: the claim says enqueuing while a DontInterrupt molecule runs does
not stop or release its audio operation, and the new molecule is dispatched
only after it completes. `VQueue::enqueue` releases `g_play` unconditionally
(there is no DontInterrupt check): right before `schedule` is entered,
`g_play` is already `none`. The subsequent `schedule(&*stopped)` then treats
the *newly enqueued* beep as "stopped", discards it (its mode is
`m_discard`) without ever playing it, and starts a fresh play of the
announcement from offset 0. -/
theorem enqueue_releases_dont_interrupt :
    ((VQueue.enqueuePre stC2 beepC2).map SchedState.gPlay = some none) ∧
    ((VQueue.enqueueMol 6 stC2 beepC2 100).fst.started.head? =
      some (.play "announce.wav" 0)) ∧
    ((VQueue.enqueueMol 6 stC2 beepC2 100).fst.lanes.getD 1 [] = []) := by
  refine ⟨rfl, rfl, rfl⟩

/-- A Loop-mode molecule whose single play atom has just completed. -/
def jingleC4 : Molecule :=
  { atoms := [.play { filename := "jingle.wav", length := 3000 }],
    priority := 0, mode := m_loop }

def stC4 : SchedState :=
  { lanes := [[jingleC4], [], [], [], []], gPlay := some (.play "jingle.wav" 0) }

/-- C4: the claim says a Loop molecule is never removed by a completion
event — when its last atom completes, `current` is reset to 0. The
completion handler instead runs `schedule(stopped)`'s generic advance:
`++current` makes `current == atoms.size()`, and the molecule is discarded
(there is no `m_loop` check in that path), leaving every lane empty. -/
theorem loop_molecule_discarded :
    (play_stop_handler 4 stC4 (0, 0) 3000).fst.lanes = [[], [], [], [], []] ∧
    (play_stop_handler 4 stC4 (0, 0) 3000).snd = true := by
  refine ⟨rfl, rfl⟩

/-- A molecule with the two-digit DTMF atom `"12"`, cursor at 0, about to be
dispatched for the first time. -/
def dtmfC6 : Molecule :=
  { atoms := [.dtmf { dtmf := "12" }], priority := 0, mode := m_discard }

def stC6 : SchedState := { lanes := [[dtmfC6], [], [], [], []] }

/-- The same with the one-digit string `"1"`. -/
def dtmfC6b : Molecule :=
  { atoms := [.dtmf { dtmf := "1" }], priority := 0, mode := m_discard }

def stC6b : SchedState := { lanes := [[dtmfC6b], [], [], [], []] }

/-- C6: the claim says the digit dispatched is `digits[cursor]` with the
cursor starting at 0, so the first digit of `"12"` played is `'1'`. The
code increments the cursor *before* reading (`if (++d > d.size())` then
`d.current()`), so the first dispatch of `"12"` plays `digits[1] = '2'`,
and for the one-digit string `"1"` the `>` comparison (1 > 1 is false)
lets it read `digits[1]` — the terminating NUL — instead of completing. -/
theorem dtmf_skips_first_digit :
    ((schedStep 2 (.loop (some (0, 0))) stC6 0).fst.started.head? =
      some (.dtmfPlay '2')) ∧
    ((schedStep 2 (.loop (some (0, 0))) stC6b 0).fst.started.head? =
      some (.dtmfPlay (Char.ofNat 0))) ∧
    ('2' : Char) ≠ '1' := by
  refine ⟨rfl, rfl, by decide⟩

def toksC8 : List String := ["7", "discard", "play", "hello.wav"]

/-- The molecule the parser builds from `"7 discard play hello.wav"`:
priority 7 — outside `[0, max_priority)` — is accepted unchecked. -/
def molC8 : Molecule :=
  { atoms := [.play { filename := "hello.wav" }], priority := 7, mode := m_discard }

/-- C8: the claim says a priority token that is not a non-negative integer
strictly below `max_priority = 5` is rejected (InvalidPriority) with no
queue mutation. The parser only catches the `std::stol` exception: the
numeric token `"7"` is accepted, the molecule is built with priority 7 and
handed to `enqueue(m, arg)`, whose `molecules[m.priority].push_back(m)` is
then an out-of-bounds write (`pushLane` is undefined there). -/
theorem out_of_range_priority_accepted :
    VQueue.enqueueDesc 8 toksC8 = some (.ok molC8) ∧
    ¬ molC8.priority < (max_priority : Int) ∧
    pushLane [[], [], [], [], []] molC8.priority molC8 = none := by
  refine ⟨rfl, by decide, rfl⟩

def toksC9 : List String := ["0", "discard", "record", "f.wav", "300"]

/-- The molecule built from `"0 discard record f.wav 300"`:
`max_silence = 300` was given explicitly. -/
def molC9 : Molecule :=
  { atoms := [.record { filename := "f.wav", max_silence := 300 }],
    priority := 0, mode := m_discard }

/-- The molecule obtained by re-parsing `molC9.desc`: the numeric parameter
is gone, so `max_silence` falls back to the default 1000. -/
def molC9re : Molecule :=
  { atoms := [.record { filename := "f.wav", max_silence := 1000 }],
    priority := 0, mode := m_discard }

/-- C9: the claim says parsing `m.desc()` yields a molecule equal to `m`
(up to *defaulted* fields). For `m` built from
`"0 discard record f.wav 300"`, `desc()` emits only
`"0 discard record f.wav"` — atom numeric parameters are not serialized —
so the re-parsed molecule has `max_silence = 1000` instead of the
explicitly given 300, and the round-trip fails. -/
theorem desc_roundtrip_loses_parameters :
    VQueue.enqueueDesc 8 toksC9 = some (.ok molC9) ∧
    molC9.desc = "0 discard record f.wav" ∧
    VQueue.enqueueDesc 8 (tokenize molC9.desc) = some (.ok molC9re) ∧
    molC9re ≠ molC9 := by
  refine ⟨rfl, rfl, rfl, by decide⟩

/-- A molecule carrying the unchecked out-of-range priority 7 (reachable
through the parser, see `out_of_range_priority_accepted`). -/
def molC10 : Molecule :=
  { atoms := [.play { filename := "x.wav" }], priority := 7, mode := m_discard }

/-- C10: the claim says every lane access of the queue operations uses an
index `p` with `0 <= p < max_priority`. But the scan loops run
`for (int p = max_priority; p >= 0; --p)` — in `VQueue::next`
(src/src/vqueue.cpp), in the draft `enqueue` stop-stamping loop
(src/unnamed/part_000) and in `vqueue_thread`
(modules/vqueue/vqueue.cpp) — so the *first* lane index read is
`max_priority = 5` itself, one past the end of the 5-element array; and
`enqueue`'s lane insertion uses the unvalidated parsed priority, which can
be 7. -/
theorem lane_scan_out_of_bounds :
    VQueue.nextAccessedLanes = [5, 4, 3, 2, 1, 0] ∧
    (¬ ∀ p ∈ VQueue.nextAccessedLanes, p < max_priority) ∧
    pushLane [[], [], [], [], []] molC10.priority molC10 = none := by
  refine ⟨rfl, by decide, rfl⟩

/-- A plain discard-mode molecule with one play atom, the simplest queue
content on which the dispatch loop is entered. -/
def helloC3 : Molecule :=
  { atoms := [.play { filename := "hello.wav", length := 2000 }],
    priority := 0, mode := m_discard }

def lanesC3 : List (List Molecule) := [[helloC3], [], [], [], []]

/-- Helper for the termination claim: once the dispatch loop is looking at
the molecule of `lanesC3`, every iteration starts its play again (the loop
reloads `n = vqueue.next()`, which returns the same molecule — nothing
removed it), so no amount of fuel makes the loop return. -/
lemma schedLoopC3_spins (fuel : Nat) :
    ∀ gp gr sl,
      (schedStep fuel (.loop (some (0, 0)))
        { lanes := lanesC3, gPlay := gp, gRec := gr, started := sl } 0).snd = false := by
  induction fuel with
  | zero => intro gp gr sl; rfl
  | succ n ih =>
    intro gp gr sl
    have step :
        schedStep (n + 1) (.loop (some (0, 0)))
          { lanes := lanesC3, gPlay := gp, gRec := gr, started := sl } 0 =
        schedStep n (.loop (some (0, 0)))
          { lanes := lanesC3, gPlay := some (.play "hello.wav" 0), gRec := gr,
            started := sl ++ [.play "hello.wav" 0] } 0 := rfl
    rw [step]
    exact ih _ _ _

/-- C3: the claim says every `schedule` invocation terminates after starting
at most one audio operation. On a queue holding one play molecule,
`schedule(nullptr)` never returns — after dispatching the play, the loop
reloads `next()`, gets the same molecule, and dispatches it again — and
already within 4 fuel steps it has started 3 play operations. -/
theorem schedule_never_terminates :
    (∀ fuel gp gr sl,
      (schedStep fuel (.sched none)
        { lanes := lanesC3, gPlay := gp, gRec := gr, started := sl } 0).snd = false) ∧
    (schedStep 4 (.sched none) { lanes := lanesC3 } 0).fst.started.length = 3 := by
  constructor
  · intro fuel gp gr sl
    cases fuel with
    | zero => rfl
    | succ n =>
      have step :
          schedStep (n + 1) (.sched none)
            { lanes := lanesC3, gPlay := gp, gRec := gr, started := sl } 0 =
          schedStep n (.loop (some (0, 0)))
            { lanes := lanesC3, gPlay := gp, gRec := gr, started := sl } 0 := rfl
      rw [step]
      exact schedLoopC3_spins n gp gr sl
  · rfl

/-- A command line that is well-formed for the module parser's grammar
(mode keyword, then priority, then a play atom). -/
def toksC7 : List String := ["discard", "0", "p", "hello.wav"]

/-- Helper for the module-enqueue claim: the atom loop sits on token index 1
(the priority token `"0"`, never advanced past), matches no atom branch,
pushes the default atom, and repeats — for every fuel. -/
lemma moduleAtomLoopC7_spins (fuel : Nat) :
    ∀ acc, moduleAtomLoop fuel toksC7 1 acc = none := by
  induction fuel with
  | zero => intro acc; rfl
  | succ n ih =>
    intro acc
    have step : moduleAtomLoop (n + 1) toksC7 1 acc = moduleAtomLoop n toksC7 1 (acc + 1) := rfl
    rw [step]
    exact ih _

/-- C7: the claim says `vqueue_enqueue` returns 0 exactly on
parse/validation failure and a positive id exactly when the molecule is
accepted and enqueued. In modules/vqueue/vqueue.cpp the atom loop never
advances its token, so the well-formed line `"discard 0 p hello.wav"` never
returns at all; the early failure paths do return 0, but a non-numeric
priority escapes as an uncaught `std::stol` exception instead; and the
(unreachable) success path returns the constant 17 without enqueuing
anything — the function never touches a queue. -/
theorem module_enqueue_never_returns_id :
    (∀ fuel, module_vqueue_enqueue fuel toksC7 = none) ∧
    module_vqueue_enqueue 5 [] = some (.ret 0) ∧
    module_vqueue_enqueue 5 ["discard"] = some (.ret 0) ∧
    module_vqueue_enqueue 5 ["discard", "x", "p", "f.wav"] = some .threw := by
  refine ⟨?_, rfl, rfl, rfl⟩
  intro fuel
  have h := moduleAtomLoopC7_spins fuel 0
  calc module_vqueue_enqueue fuel toksC7
      = (match moduleAtomLoop fuel toksC7 1 0 with
         | none => none
         | some .ret0 => some (MResult.ret 0)
         | some (.done n) =>
           if n = 0 then some (MResult.ret 0) else some (MResult.ret 17)) := rfl
    _ = none := by rw [h]

/-- C5: `next()` returns the head (index 0, the earliest-enqueued element —
`enqueue` appends at the back, second conjunct) of the highest-priority
non-empty lane, scanning priorities downward, and returns `none` exactly
when all lanes are empty. Stated over any queue state satisfying the
parser-guaranteed invariant that every queued molecule has a nonempty atom
list (the inner scan skips atom-less molecules, so without the invariant
the head could be skipped). The scan's first read of the out-of-bounds
lane index `max_priority` (see the C10 theorem) behaves as an empty lane. -/
theorem next_selects_highest_nonempty_head
    (l0 l1 l2 l3 l4 : List Molecule)
    (h0 : ∀ m ∈ l0, m.atoms ≠ []) (h1 : ∀ m ∈ l1, m.atoms ≠ [])
    (h2 : ∀ m ∈ l2, m.atoms ≠ []) (h3 : ∀ m ∈ l3, m.atoms ≠ [])
    (h4 : ∀ m ∈ l4, m.atoms ≠ []) :
    (VQueue.next [l0, l1, l2, l3, l4] =
      if l4 ≠ [] then some (4, 0)
      else if l3 ≠ [] then some (3, 0)
      else if l2 ≠ [] then some (2, 0)
      else if l1 ≠ [] then some (1, 0)
      else if l0 ≠ [] then some (0, 0)
      else none) ∧
    (∀ mNew : Molecule, 0 ≤ mNew.priority → mNew.priority.toNat < 5 →
      pushLane [l0, l1, l2, l3, l4] mNew.priority mNew =
        some (listUpd [l0, l1, l2, l3, l4] mNew.priority.toNat (fun lane => lane ++ [mNew]))) := by
  constructor
  · have key : ∀ (l : List Molecule), (∀ m ∈ l, m.atoms ≠ []) →
        findAtomIdx l 0 = if l = [] then none else some 0 := by
      intro l hl
      cases l with
      | nil => rfl
      | cons m r =>
        have hm := hl m (List.mem_cons_self m r)
        have hlen : m.atoms.length ≠ 0 := by
          simpa [List.length_eq_zero] using hm
        simp [findAtomIdx, hlen]
    have reduce :
        VQueue.next [l0, l1, l2, l3, l4] =
          (match findAtomIdx l4 0 with
           | some i => some (4, i)
           | none =>
             match findAtomIdx l3 0 with
             | some i => some (3, i)
             | none =>
               match findAtomIdx l2 0 with
               | some i => some (2, i)
               | none =>
                 match findAtomIdx l1 0 with
                 | some i => some (1, i)
                 | none =>
                   match findAtomIdx l0 0 with
                   | some i => some (0, i)
                   | none => none) := rfl
    rw [reduce, key l4 h4, key l3 h3, key l2 h2, key l1 h1, key l0 h0]
    by_cases c4 : l4 = [] <;> by_cases c3 : l3 = [] <;> by_cases c2 : l2 = [] <;>
      by_cases c1 : l1 = [] <;> by_cases c0 : l0 = [] <;> simp [c4, c3, c2, c1, c0]
  · intro mNew hp hlt
    have hlen : mNew.priority.toNat < ([l0, l1, l2, l3, l4] : List (List Molecule)).length := by
      simpa using hlt
    simp only [pushLane]
    rw [if_pos ⟨hp, hlen⟩]

/-- A concrete molecule with a nonempty atom list, for the C5 witness. -/
def molW : Molecule :=
  { atoms := [.play { filename := "w.wav", length := 1 }], priority := 1, mode := m_discard }

/-- Witness for C5 at a concrete queue: lanes 2..4 empty, lane 1 holding one
molecule, lane 0 empty — `next()` picks lane 1's head. -/
theorem next_selects_highest_nonempty_head_witness :
    VQueue.next [[], [molW], [], [], []] = some (1, 0) := by
  have h := (next_selects_highest_nonempty_head [] [molW] [] [] []
    (by intro m hm; cases hm) (by decide) (by intro m hm; cases hm)
    (by intro m hm; cases hm) (by intro m hm; cases hm)).1
  rw [h]
  decide

end VqueueModel
